import Mathlib

/-!
Verification of the API-gateway request pipeline of `src/api-gateway/main.py`.

The gateway is a FastAPI application.  The embedding models:
  * the Redis counter store (`Store`) used by `rate_limiter` (lines 106-122);
  * the prometheus metric events emitted by `rate_limiter` and by
    `metrics_middleware` (lines 125-150);
  * the proxy forwarder `proxy_request` (lines 153-184) against an abstract
    backend oracle, logging every outbound httpx call;
  * the composed per-request pipeline `handle_request`, reflecting the
    framework semantics the source relies on: FastAPI routing matches the
    path and method first, then resolves the `Depends(rate_limiter)`
    dependency, then runs the handler; `HTTPException` is converted to a JSON
    response by the exception middleware sitting inside `call_next` of the
    user middleware, while any other exception propagates through
    `metrics_middleware` and is turned into a plain-text 500 by the outermost
    server-error middleware.  The CORS middleware is configuration outside
    the pipeline and is not modelled.
-/

namespace Gateway

/-- Abstract JSON values: the result of `response.json()` and the content of
a `JSONResponse`. -/
inductive Json where
  | jnull
  | jbool (b : Bool)
  | jnum (n : Int)
  | jstr (s : String)
  | jarr (xs : List Json)
  | jobj (fs : List (String × Json))

/-- Exceptions that can escape a pipeline stage: `http` is FastAPI's
`HTTPException(status_code, detail)`; `infra` is any other exception
(`redis.ConnectionError`, `json.JSONDecodeError`, ...), which no handler in
`main.py` catches. -/
inductive Exc where
  | http (status : Nat) (detail : String)
  | infra (msg : String)
deriving DecidableEq

/-- Response bodies: a `JSONResponse` carries a JSON value, plain-text
responses carry a string. -/
inductive Body where
  | empty
  | jsonBody (j : Json)
  | textBody (s : String)

/-- An HTTP response as relayed to the client. -/
structure Response where
  status : Nat
  headers : List (String × String)
  mediaType : String
  body : Body

/-- `JSONResponse(content=j, status_code=s)`: JSON media type, no extra
headers beyond the framework content-type. -/
def jsonResponse (s : Nat) (j : Json) : Response :=
  { status := s, headers := [], mediaType := "application/json", body := Body.jsonBody j }

/-- An inbound HTTP request as seen by the gateway. -/
structure Request where
  clientHost : String
  method : String
  path : String
  headers : List (String × String)
  queryParams : List (String × String)
  body : String

/-- The Redis counter store: a reachability flag (`false` models the store
being unreachable, in which case `incr` raises `redis.ConnectionError`), the
integer counters, and the armed expiries (`ttl k = some n` after
`expire(k, n)`). -/
structure Store where
  reachable : Bool
  counters : String → Nat
  ttl : String → Option Nat

/-- Pointwise update of a key-indexed map. -/
def setKey {α : Type} (f : String → α) (k : String) (v : α) : String → α :=
  fun q => if q = k then v else f q

/-- Python's `s.startswith(pre)`, over the character lists of the strings. -/
def strStarts (s pre : String) : Bool := pre.data.isPrefixOf s.data

/-- Python's `path.split('/')`, over the character list of the string:
splits on every slash, keeping empty segments, so `"/a/b"` becomes
`["", "a", "b"]`. -/
def splitSlash : List Char → List (List Char)
  | [] => [[]]
  | c :: cs =>
      let r := splitSlash cs
      if c = '/' then [] :: r
      else
        match r with
        | [] => [[c]]
        | w :: ws => (c :: w) :: ws

/-- Trace span attribute values (`span.set_attribute`). -/
inductive AttrVal where
  | s (v : String)
  | b (v : Bool)
  | n (v : Nat)
deriving DecidableEq

/-- A trace span, as the list of attributes set on it, in order. -/
abbrev Span := List (String × AttrVal)

/-- Prometheus metric events, in emission order: the `ACTIVE_REQUESTS` gauge
inc/dec, one `REQUEST_COUNT` increment labelled (method, endpoint, status),
one `REQUEST_DURATION` observation labelled (method, endpoint), and one
`RATE_LIMIT_HITS` increment labelled by client ip. -/
inductive MEvent where
  | gaugeInc
  | gaugeDec
  | countInc (method : String) (endpoint : String) (status : Nat)
  | durObs (method : String) (endpoint : String)
  | rlHit (clientIp : String)
deriving DecidableEq

/-- True on `REQUEST_COUNT` increment events. -/
def isCountInc : MEvent → Bool
  | MEvent.countInc _ _ _ => true
  | _ => false

/-- True on `REQUEST_DURATION` observation events. -/
def isDurObs : MEvent → Bool
  | MEvent.durObs _ _ => true
  | _ => false

/-- True on `ACTIVE_REQUESTS` gauge events. -/
def isGauge : MEvent → Bool
  | MEvent.gaugeInc => true
  | MEvent.gaugeDec => true
  | _ => false

/-- Effect of one event on the `ACTIVE_REQUESTS` gauge. -/
def gaugeDelta : MEvent → Int
  | MEvent.gaugeInc => 1
  | MEvent.gaugeDec => -1
  | _ => 0

/-- Net effect of an event sequence on the `ACTIVE_REQUESTS` gauge. -/
def gaugeNet (es : List MEvent) : Int := (es.map gaugeDelta).sum

/-- The rate-limit key of line 108 (an f-string over client ip and path). -/
def rate_limit_key (req : Request) : String :=
  "ratelimit:" ++ req.clientHost ++ ":" ++ req.path

/-- Result of one `rate_limiter` dependency call. -/
structure RLResult where
  result : Except Exc Unit
  store : Store
  span : Span
  events : List MEvent

/-- `rate_limiter` (lines 106-122): `count = redis.incr(key)`; if `count == 1`
then `redis.expire(key, 60)`; if `count > 100` then increment
`RATE_LIMIT_HITS` and raise `HTTPException(429)`.  When the store is
unreachable the `incr` call raises, and nothing in `main.py` catches it. -/
def rate_limiter (req : Request) (store : Store) : RLResult :=
  let key := rate_limit_key req
  let span0 : Span :=
    [("client.ip", AttrVal.s req.clientHost), ("rate_limit.key", AttrVal.s key)]
  if store.reachable = false then
    { result := Except.error (Exc.infra "redis connection error")
      store := store, span := span0, events := [] }
  else
    let count := store.counters key + 1
    let store1 : Store := { store with counters := setKey store.counters key count }
    let store2 : Store :=
      if count = 1 then { store1 with ttl := setKey store1.ttl key (some 60) } else store1
    let span1 := span0 ++ [("rate_limit.count", AttrVal.n count)]
    if count > 100 then
      { result := Except.error (Exc.http 429 "Rate limit exceeded")
        store := store2
        span := span1 ++ [("rate_limit.exceeded", AttrVal.b true)]
        events := [MEvent.rlHit req.clientHost] }
    else
      { result := Except.ok (), store := store2, span := span1, events := [] }

/-- An outbound httpx call issued by the proxy forwarder. -/
structure OutCall where
  method : String
  url : String
  headers : List (String × String)
  params : List (String × String)
  body : Option String
deriving DecidableEq

/-- What the backend does with one outbound call: raise an
`httpx.RequestError` (connection refused / DNS failure / the 30-second
client timeout, all subclasses of `RequestError`), or answer with a status,
response headers, and a body that either decodes as JSON (`some j`,
the value `response.json()` returns) or does not (`none`, in which case
`response.json()` raises a decode error). -/
inductive BackendAnswer where
  | netErr (msg : String)
  | ok (status : Nat) (headers : List (String × String)) (jsonBody : Option Json)

/-- The backend as an oracle from outbound calls to answers. -/
abbrev Backend := OutCall → BackendAnswer

/-- Result of one `proxy_request` call: the value returned or exception
raised, the outbound calls actually dispatched, and the trace span. -/
structure ProxyResult where
  result : Except Exc Response
  calls : List OutCall
  span : Span

/-- The fixed outbound timeout of line 94: `httpx.AsyncClient(timeout=30.0)`. -/
def HTTP_CLIENT_TIMEOUT_SECONDS : Nat := 30

/-- Lines 155-156: `headers = dict(request.headers); headers.pop('host', None)`
(Starlette header keys are lower-cased). -/
def dropHost (hs : List (String × String)) : List (String × String) :=
  hs.filter (fun p => p.fst ≠ "host")

/-- The method dispatch of lines 165-176: which outbound call is issued for
each supported method (`none` for the unsupported-method branch, which
raises 405 before any outbound call). GET passes the query parameters,
POST/PUT pass the raw body, DELETE passes neither. -/
def dispatchCall (url : String) (headers : List (String × String)) (req : Request) :
    Option OutCall :=
  if req.method = "GET" then
    some { method := "GET", url := url, headers := headers,
           params := req.queryParams, body := none }
  else if req.method = "POST" then
    some { method := "POST", url := url, headers := headers,
           params := [], body := some req.body }
  else if req.method = "PUT" then
    some { method := "PUT", url := url, headers := headers,
           params := [], body := some req.body }
  else if req.method = "DELETE" then
    some { method := "DELETE", url := url, headers := headers,
           params := [], body := none }
  else none

/-- `proxy_request` (lines 153-184): builds `url = service_url + path`, strips
the host header, dispatches per method; on `httpx.RequestError` marks the
span errored and raises `HTTPException(503)`; otherwise records the status
on the span and returns `JSONResponse(response.json(), status)`.  A body
that fails to decode makes `response.json()` raise, which the
`except httpx.RequestError` clause does not catch. -/
def proxy_request (backend : Backend) (service_url : String) (path : String)
    (req : Request) : ProxyResult :=
  let url := service_url ++ path
  let headers := dropHost req.headers
  let span0 : Span :=
    [("http.url", AttrVal.s url), ("http.method", AttrVal.s req.method),
     ("http.target", AttrVal.s path), ("service.url", AttrVal.s service_url)]
  match dispatchCall url headers req with
  | none =>
      { result := Except.error (Exc.http 405 "Method not allowed")
        calls := [], span := span0 }
  | some call =>
      { result :=
          match backend call with
          | BackendAnswer.netErr msg =>
              Except.error (Exc.http 503 ("Service unavailable: " ++ msg))
          | BackendAnswer.ok _ _ none => Except.error (Exc.infra "JSONDecodeError")
          | BackendAnswer.ok status _ (some j) => Except.ok (jsonResponse status j)
        calls := [call]
        span :=
          match backend call with
          | BackendAnswer.netErr msg =>
              span0 ++ [("error", AttrVal.b true), ("error.message", AttrVal.s msg)]
          | BackendAnswer.ok status _ _ =>
              span0 ++ [("http.status_code", AttrVal.n status)] }

/-- Line 25 default; the handler of line 201 forwards to this base URL. -/
def USER_SERVICE_URL : String := "http://localhost:3000"

/-- The methods of the route decorator on line 199.  FastAPI's `APIRoute`
matches exactly the listed methods (it does not add HEAD). -/
def allowedMethods : List String := ["GET", "POST", "PUT", "DELETE"]

/-- Result of routing plus handler execution (the part of the pipeline that
`call_next` of `metrics_middleware` runs, before exception conversion). -/
structure RunResult where
  result : Except Exc Response
  store : Store
  calls : List OutCall
  events : List MEvent

/-- The `/health` handler response (lines 187-189). -/
def healthResponse : Response :=
  jsonResponse 200
    (Json.jobj [("status", Json.jstr "healthy"), ("service", Json.jstr "api-gateway")])

/-- The `/metrics` handler response (lines 192-194): the current prometheus
exposition text (content abstracted) with the prometheus content type. -/
def metricsResponse : Response :=
  { status := 200, headers := [], mediaType := "text/plain; version=0.0.4; charset=utf-8"
    body := Body.textBody "prometheus exposition" }

/-- A Starlette `redirect_slashes` 307 response. -/
def redirectResponse (location : String) : Response :=
  { status := 307, headers := [("location", location)], mediaType := ""
    body := Body.empty }

/-- Routing and handler execution, per FastAPI semantics for the app's three
routes (`/health` GET, `/metrics` GET, `/api/users/{path:path}` with the
four methods of line 199).  Route matching happens first; only when the
proxied route matches (path and method) does FastAPI resolve the
`Depends(rate_limiter)` dependency and then run the handler of line 201.
The handler passes `f"/api/users/{captured}"`, which equals the original
request path, to `proxy_request`.  A path that matches a route only after
toggling a trailing slash is answered by Starlette's `redirect_slashes`
with a 307; anything else falls through to the router default 404. -/
def route_and_run (store : Store) (backend : Backend) (req : Request) : RunResult :=
  if req.path = "/health" then
    if req.method = "GET" then
      { result := Except.ok healthResponse, store := store, calls := [], events := [] }
    else
      { result := Except.error (Exc.http 405 "Method Not Allowed")
        store := store, calls := [], events := [] }
  else if req.path = "/metrics" then
    if req.method = "GET" then
      { result := Except.ok metricsResponse, store := store, calls := [], events := [] }
    else
      { result := Except.error (Exc.http 405 "Method Not Allowed")
        store := store, calls := [], events := [] }
  else if strStarts req.path "/api/users/" then
    if req.method ∈ allowedMethods then
      let rl := rate_limiter req store
      match rl.result with
      | Except.error e =>
          { result := Except.error e, store := rl.store, calls := [], events := rl.events }
      | Except.ok _ =>
          let pr := proxy_request backend USER_SERVICE_URL req.path req
          { result := pr.result, store := rl.store, calls := pr.calls, events := rl.events }
    else
      { result := Except.error (Exc.http 405 "Method Not Allowed")
        store := store, calls := [], events := [] }
  else if req.path = "/api/users" then
    { result := Except.ok (redirectResponse (req.path ++ "/"))
      store := store, calls := [], events := [] }
  else if req.path = "/health/" ∨ req.path = "/metrics/" then
    { result := Except.ok (redirectResponse (String.mk req.path.data.dropLast))
      store := store, calls := [], events := [] }
  else
    { result := Except.error (Exc.http 404 "Not Found")
      store := store, calls := [], events := [] }

/-- FastAPI's exception middleware (inside `call_next` of the user
middleware): an `HTTPException` becomes a `JSONResponse` with body
`detail`; any other exception keeps propagating. -/
def http_exc_handler (r : Except Exc Response) : Except Exc Response :=
  match r with
  | Except.error (Exc.http s d) =>
      Except.ok (jsonResponse s (Json.jobj [("detail", Json.jstr d)]))
  | other => other

/-- `get_base_endpoint` (lines 56-61): `/api/users/123` becomes `/api/users`;
paths whose second segment is not `api` (or with fewer than three
segments) are kept whole. -/
def get_base_endpoint (path : String) : String :=
  let parts := splitSlash path.data
  if 3 ≤ parts.length ∧ parts.getD 1 [] = "api".data then
    String.mk ('/' :: parts.getD 1 [] ++ '/' :: parts.getD 2 [])
  else path

/-- The final per-request outcome at the server boundary: the wire response,
whether it came from an unhandled exception (turned into a plain-text 500
by the outermost server-error middleware, with no JSON detail), the final
store, the outbound calls, and the metric events in order. -/
structure Outcome where
  response : Response
  unhandled : Bool
  store : Store
  calls : List OutCall
  events : List MEvent

/-- The full per-request pipeline: `metrics_middleware` (lines 125-150)
around `http_exc_handler ∘ route_and_run`.  The middleware increments the
gauge on entry; when `call_next` returns a response it records one
`REQUEST_COUNT` increment labelled (method, base endpoint, status) and one
`REQUEST_DURATION` observation labelled (method, base endpoint); the
`finally` block decrements the gauge on both paths.  When `call_next`
raises, the count and duration lines are skipped and the exception reaches
the server-error middleware, which answers a plain-text 500. -/
def handle_request (store : Store) (backend : Backend) (req : Request) : Outcome :=
  let r := route_and_run store backend req
  let base := get_base_endpoint req.path
  match http_exc_handler r.result with
  | Except.ok resp =>
      { response := resp, unhandled := false, store := r.store, calls := r.calls
        events := MEvent.gaugeInc ::
          (r.events ++ [MEvent.countInc req.method base resp.status,
                        MEvent.durObs req.method base, MEvent.gaugeDec]) }
  | Except.error _ =>
      { response := { status := 500, headers := [], mediaType := "text/plain"
                      body := Body.textBody "Internal Server Error" }
        unhandled := true, store := r.store, calls := r.calls
        events := MEvent.gaugeInc :: (r.events ++ [MEvent.gaugeDec]) }

/-! Concrete inputs used by counterexamples and witnesses. -/

/-- A GET to a path no route matches. -/
def reqUnknown : Request :=
  { clientHost := "9.9.9.9", method := "GET", path := "/api/unknownservice/x"
    headers := [("host", "gw.local"), ("accept", "*/*")], queryParams := [], body := "" }

/-- A GET to the proxied users route. -/
def reqUsers : Request :=
  { clientHost := "1.2.3.4", method := "GET", path := "/api/users/42"
    headers := [("host", "gw.local"), ("accept", "*/*")]
    queryParams := [("v", "1")], body := "" }

/-- A POST to the proxied users route. -/
def reqUsersPost : Request :=
  { clientHost := "1.2.3.4", method := "POST", path := "/api/users/register"
    headers := [("host", "gw.local"), ("content-type", "application/json")]
    queryParams := [], body := "name=amllan" }

/-- A PATCH (unsupported method) to the proxied users route. -/
def reqUsersPatch : Request :=
  { clientHost := "1.2.3.4", method := "PATCH", path := "/api/users/42"
    headers := [("host", "gw.local")], queryParams := [], body := "x" }

/-- A reachable store with all counters at zero. -/
def storeZero : Store :=
  { reachable := true, counters := fun _ => 0, ttl := fun _ => none }

/-- An unreachable store. -/
def storeDown : Store :=
  { reachable := false, counters := fun _ => 0, ttl := fun _ => none }

/-- A backend answering 200 with a JSON-decodable body. -/
def backendOkJson : Backend := fun _ =>
  BackendAnswer.ok 200 [("content-type", "application/json"), ("x-backend", "users")]
    (some (Json.jobj [("id", Json.jnum 42)]))

/-- A backend answering 200 with a body that fails JSON decoding. -/
def backendNotJson : Backend := fun _ =>
  BackendAnswer.ok 200 [("content-type", "text/html")] none

/-- A backend whose every call raises an `httpx.RequestError`. -/
def backendDown : Backend := fun _ => BackendAnswer.netErr "Connection refused"

end Gateway

namespace Gateway

@[simp]
theorem setKey_same {α : Type} (f : String → α) (k : String) (v : α) :
    setKey f k v k = v := by
  simp [setKey]

theorem setKey_other {α : Type} (f : String → α) (k : String) (v : α) (q : String)
    (h : q ≠ k) : setKey f k v q = f q := by
  simp [setKey, h]

/-- The rate limiter emits either no metric event or exactly one
`RATE_LIMIT_HITS` increment. -/
theorem rate_limiter_events (req : Request) (store : Store) :
    (rate_limiter req store).events = [] ∨
    (rate_limiter req store).events = [MEvent.rlHit req.clientHost] := by
  unfold rate_limiter
  split_ifs <;> simp
  split_ifs <;> simp

/-- When the store is reachable and the post-increment count stays within the
threshold, the rate limiter allows the request and emits no metric event. -/
theorem rate_limiter_allow (req : Request) (store : Store)
    (h : store.reachable = true)
    (hle : store.counters (rate_limit_key req) + 1 ≤ 100) :
    (rate_limiter req store).result = Except.ok () ∧
    (rate_limiter req store).events = [] := by
  have hne : (store.reachable = false) = False := by simp [h]
  unfold rate_limiter
  simp only [hne, if_false]
  split_ifs <;> simp_all
  omega

/-- Routing plus handler execution emits either no metric event or exactly
one `RATE_LIMIT_HITS` increment; in particular no gauge, count, or duration
event. -/
theorem route_and_run_events (store : Store) (backend : Backend) (req : Request) :
    (route_and_run store backend req).events = [] ∨
    (route_and_run store backend req).events = [MEvent.rlHit req.clientHost] := by
  unfold route_and_run
  split_ifs <;> try simp
  rcases h : (rate_limiter req store).result with e | u
  · simpa [h] using rate_limiter_events req store
  · simpa [h] using rate_limiter_events req store

/-- With the store unreachable, `redis.incr` raises and the rate limiter
leaves the store untouched, emitting no metric event. -/
theorem rate_limiter_down (req : Request) (store : Store)
    (hdown : store.reachable = false) :
    rate_limiter req store =
      { result := Except.error (Exc.infra "redis connection error")
        store := store
        span := [("client.ip", AttrVal.s req.clientHost),
                 ("rate_limit.key", AttrVal.s (rate_limit_key req))]
        events := [] } := by
  unfold rate_limiter
  simp [hdown]

/-- Every supported method dispatches exactly one outbound call. -/
theorem dispatchCall_allowed (url : String) (hs : List (String × String))
    (req : Request) (hmeth : req.method ∈ allowedMethods) :
    ∃ c, dispatchCall url hs req = some c := by
  simp only [allowedMethods, List.mem_cons, List.not_mem_nil, or_false] at hmeth
  rcases hmeth with h | h | h | h <;> simp [dispatchCall, h]

/-- When every backend call raises `httpx.RequestError`, the proxy raises
`HTTPException(503)` with the error text and marks the span errored. -/
theorem proxy_request_netErr (backend : Backend) (su p : String) (req : Request)
    (msg : String) (hb : ∀ c, backend c = BackendAnswer.netErr msg)
    (hmeth : req.method ∈ allowedMethods) :
    (proxy_request backend su p req).result
        = Except.error (Exc.http 503 ("Service unavailable: " ++ msg)) ∧
    ("error", AttrVal.b true) ∈ (proxy_request backend su p req).span ∧
    ("error.message", AttrVal.s msg) ∈ (proxy_request backend su p req).span := by
  obtain ⟨c, hc⟩ := dispatchCall_allowed (su ++ p) (dropHost req.headers) req hmeth
  unfold proxy_request
  simp [hc, hb]

/-- When the backend answers but its body fails JSON decoding,
`response.json()` raises an error the proxy does not catch. -/
theorem proxy_request_bad_json (backend : Backend) (su p : String) (req : Request)
    (st : Nat) (hs : List (String × String))
    (hb : ∀ c, backend c = BackendAnswer.ok st hs none)
    (hmeth : req.method ∈ allowedMethods) :
    (proxy_request backend su p req).result = Except.error (Exc.infra "JSONDecodeError") := by
  obtain ⟨c, hc⟩ := dispatchCall_allowed (su ++ p) (dropHost req.headers) req hmeth
  unfold proxy_request
  simp [hc, hb]

/-- A path matching the proxied route is distinct from every other routing
case. -/
theorem matched_path_ne (p : String) (h : strStarts p "/api/users/" = true) :
    p ≠ "/health" ∧ p ≠ "/metrics" ∧ p ≠ "/api/users" ∧
    p ≠ "/health/" ∧ p ≠ "/metrics/" := by
  refine ⟨?_, ?_, ?_, ?_, ?_⟩ <;> intro e <;> rw [e] at h <;> exact absurd h (by decide)

/-- Routing for a request matching the proxied route with an unsupported
method: FastAPI answers 405 before resolving any dependency. -/
theorem route_and_run_matched_405 (store : Store) (backend : Backend) (req : Request)
    (hm : strStarts req.path "/api/users/" = true)
    (hmeth : req.method ∉ allowedMethods) :
    route_and_run store backend req =
      { result := Except.error (Exc.http 405 "Method Not Allowed")
        store := store, calls := [], events := [] } := by
  obtain ⟨n1, n2, n3, n4, n5⟩ := matched_path_ne req.path hm
  unfold route_and_run
  simp [n1, n2, n3, n4, n5, hm, hmeth]

/-- Routing for a matched request whose rate-limit dependency raised. -/
theorem route_and_run_matched_rl_error (store : Store) (backend : Backend)
    (req : Request) (e : Exc)
    (hm : strStarts req.path "/api/users/" = true)
    (hmeth : req.method ∈ allowedMethods)
    (herr : (rate_limiter req store).result = Except.error e) :
    route_and_run store backend req =
      { result := Except.error e, store := (rate_limiter req store).store
        calls := [], events := (rate_limiter req store).events } := by
  obtain ⟨n1, n2, n3, n4, n5⟩ := matched_path_ne req.path hm
  unfold route_and_run
  simp [n1, n2, n3, n4, n5, hm, hmeth, herr]

/-- Routing for a matched, admitted request: the handler forwards through
`proxy_request` to the users backend with the original path. -/
theorem route_and_run_matched_allowed (store : Store) (backend : Backend)
    (req : Request)
    (hm : strStarts req.path "/api/users/" = true)
    (hmeth : req.method ∈ allowedMethods)
    (hok : (rate_limiter req store).result = Except.ok ()) :
    route_and_run store backend req =
      { result := (proxy_request backend USER_SERVICE_URL req.path req).result
        store := (rate_limiter req store).store
        calls := (proxy_request backend USER_SERVICE_URL req.path req).calls
        events := (rate_limiter req store).events } := by
  obtain ⟨n1, n2, n3, n4, n5⟩ := matched_path_ne req.path hm
  unfold route_and_run
  simp [n1, n2, n3, n4, n5, hm, hmeth, hok]

/-- When routing/handler execution raised an `HTTPException`, the exception
middleware converts it to a JSON response; the metrics middleware then sees
a normal response. -/
theorem handle_request_of_http_error (store : Store) (backend : Backend)
    (req : Request) (s : Nat) (d : String)
    (h : (route_and_run store backend req).result = Except.error (Exc.http s d)) :
    (handle_request store backend req).response
        = jsonResponse s (Json.jobj [("detail", Json.jstr d)]) ∧
    (handle_request store backend req).unhandled = false ∧
    (handle_request store backend req).calls = (route_and_run store backend req).calls ∧
    (handle_request store backend req).store = (route_and_run store backend req).store := by
  unfold handle_request
  simp [h, http_exc_handler]

/-- When routing/handler execution raised anything other than an
`HTTPException`, the exception propagates unhandled and the server-error
middleware answers a plain-text 500 with no reason detail. -/
theorem handle_request_of_infra (store : Store) (backend : Backend)
    (req : Request) (msg : String)
    (h : (route_and_run store backend req).result = Except.error (Exc.infra msg)) :
    (handle_request store backend req).response.status = 500 ∧
    (handle_request store backend req).response.body
        = Body.textBody "Internal Server Error" ∧
    (handle_request store backend req).unhandled = true ∧
    (handle_request store backend req).calls = (route_and_run store backend req).calls ∧
    (handle_request store backend req).store = (route_and_run store backend req).store := by
  unfold handle_request
  simp [h, http_exc_handler]

/-- When routing/handler execution returned a response, it is relayed
unchanged. -/
theorem handle_request_of_ok (store : Store) (backend : Backend)
    (req : Request) (resp : Response)
    (h : (route_and_run store backend req).result = Except.ok resp) :
    (handle_request store backend req).response = resp ∧
    (handle_request store backend req).unhandled = false ∧
    (handle_request store backend req).calls = (route_and_run store backend req).calls ∧
    (handle_request store backend req).store = (route_and_run store backend req).store := by
  unfold handle_request
  simp [h, http_exc_handler]

/-- C1: the rate limiter increments the window counter; it rejects with 429
iff the post-increment value exceeds 100 (so the 100th request in a window
is admitted and the 101st rejected); when the post-increment value is 1 a
60-second expiry is armed on the key. -/
theorem C1_rate_limiter (req : Request) (store : Store)
    (h : store.reachable = true) :
    (rate_limiter req store).store.counters (rate_limit_key req)
        = store.counters (rate_limit_key req) + 1 ∧
    ((rate_limiter req store).result
        = Except.error (Exc.http 429 "Rate limit exceeded") ↔
      store.counters (rate_limit_key req) + 1 > 100) ∧
    (store.counters (rate_limit_key req) + 1 = 1 →
      (rate_limiter req store).store.ttl (rate_limit_key req) = some 60) := by
  have hne : (store.reachable = false) = False := by simp [h]
  simp only [rate_limiter, hne, if_false]
  split_ifs <;> simp_all

/-- C1 witness: with a prior counter of 99 the 100th request is admitted;
with a prior counter of 100 the 101st is rejected; the first request in a
window arms a 60-second expiry. -/
theorem C1_rate_limiter_witness :
    (¬ (rate_limiter reqUsers
          { reachable := true, counters := fun _ => 99, ttl := fun _ => none }).result
        = Except.error (Exc.http 429 "Rate limit exceeded")) ∧
    (rate_limiter reqUsers
          { reachable := true, counters := fun _ => 100, ttl := fun _ => none }).result
        = Except.error (Exc.http 429 "Rate limit exceeded") ∧
    (rate_limiter reqUsers storeZero).store.ttl (rate_limit_key reqUsers) = some 60 := by
  refine ⟨?_, ?_, ?_⟩
  · intro hc
    exact absurd ((C1_rate_limiter reqUsers
      { reachable := true, counters := fun _ => 99, ttl := fun _ => none } rfl).2.1.mp hc)
      (by norm_num)
  · exact (C1_rate_limiter reqUsers
      { reachable := true, counters := fun _ => 100, ttl := fun _ => none } rfl).2.1.mpr
      (by norm_num)
  · exact (C1_rate_limiter reqUsers storeZero rfl).2.2 rfl

/-- C2 counterexample: a GET to `/api/unknownservice/x` (no configured
route) yields 404, but contrary to the claim the rate-limit counter is NOT
incremented: FastAPI resolves the `Depends(rate_limiter)` dependency only
after the route has matched, so an unmatched path never reaches the rate
limiter. -/
theorem C2_counterexample :
    (handle_request storeZero backendOkJson reqUnknown).response.status = 404 ∧
    (handle_request storeZero backendOkJson reqUnknown).calls = [] ∧
    storeZero.counters (rate_limit_key reqUnknown) = 0 ∧
    ¬ (handle_request storeZero backendOkJson reqUnknown).store.counters
        (rate_limit_key reqUnknown)
      = storeZero.counters (rate_limit_key reqUnknown) + 1 := by
  decide

/-- C2 amended: a request whose path matches no route is answered 404 with
no outbound call, but the rate limiter does not run either — routing
precedes the rate-limit dependency, so the counter store is left untouched
(the claim's "counter increment is still executed" fails). -/
theorem C2_no_route (store : Store) (backend : Backend) (req : Request)
    (h1 : req.path ≠ "/health") (h2 : req.path ≠ "/metrics")
    (h3 : strStarts req.path "/api/users/" = false)
    (h4 : req.path ≠ "/api/users") (h5 : req.path ≠ "/health/")
    (h6 : req.path ≠ "/metrics/") :
    (handle_request store backend req).response.status = 404 ∧
    (handle_request store backend req).calls = [] ∧
    (handle_request store backend req).store = store ∧
    (handle_request store backend req).unhandled = false := by
  unfold handle_request route_and_run
  simp [h1, h2, h3, h4, h5, h6, http_exc_handler, jsonResponse]

/-- C2 amended witness: the unknown-service GET hits the 404 path with the
store untouched. -/
theorem C2_no_route_witness :
    (handle_request storeZero backendOkJson reqUnknown).response.status = 404 ∧
    (handle_request storeZero backendOkJson reqUnknown).calls = [] ∧
    (handle_request storeZero backendOkJson reqUnknown).store = storeZero ∧
    (handle_request storeZero backendOkJson reqUnknown).unhandled = false :=
  C2_no_route storeZero backendOkJson reqUnknown (by decide) (by decide) (by decide)
    (by decide) (by decide) (by decide)

/-- C3 counterexample: with the counter store unreachable, a GET to
`/api/users/42` is NOT converted to a 503 — the `redis.ConnectionError`
propagates unhandled and the client gets a generic plain-text 500, exactly
what the claim says never happens. -/
theorem C3_counterexample :
    (handle_request storeDown backendOkJson reqUsers).unhandled = true ∧
    (handle_request storeDown backendOkJson reqUsers).response.status = 500 ∧
    ¬ (handle_request storeDown backendOkJson reqUsers).response.status = 503 := by
  decide

/-- C3 amended: when the counter store is unreachable on a matched request,
the rate limiter raises a distinguishable infrastructure error (not a 429,
not an admission: no outbound call is made and the store is untouched), but
nothing catches it: it propagates as an unhandled fault and the client
receives a generic plain-text 500 with no machine-readable reason, not a
503. -/
theorem C3_store_unreachable (store : Store) (backend : Backend) (req : Request)
    (hm : strStarts req.path "/api/users/" = true)
    (hmeth : req.method ∈ allowedMethods)
    (hdown : store.reachable = false) :
    (route_and_run store backend req).result
        = Except.error (Exc.infra "redis connection error") ∧
    (handle_request store backend req).unhandled = true ∧
    (handle_request store backend req).response.status = 500 ∧
    (handle_request store backend req).response.body
        = Body.textBody "Internal Server Error" ∧
    (handle_request store backend req).calls = [] ∧
    (handle_request store backend req).store = store := by
  have hrl := rate_limiter_down req store hdown
  have hroute := route_and_run_matched_rl_error store backend req
    (Exc.infra "redis connection error") hm hmeth (by rw [hrl])
  have hres : (route_and_run store backend req).result
      = Except.error (Exc.infra "redis connection error") := by rw [hroute]
  have hh := handle_request_of_infra store backend req "redis connection error" hres
  refine ⟨hres, hh.2.2.1, hh.1, hh.2.1, ?_, ?_⟩
  · rw [hh.2.2.2.1, hroute]
  · rw [hh.2.2.2.2, hroute, hrl]

/-- C3 amended witness: the unreachable-store GET produces the unhandled
500 with no outbound call. -/
theorem C3_store_unreachable_witness :
    (route_and_run storeDown backendOkJson reqUsers).result
        = Except.error (Exc.infra "redis connection error") ∧
    (handle_request storeDown backendOkJson reqUsers).unhandled = true ∧
    (handle_request storeDown backendOkJson reqUsers).response.status = 500 ∧
    (handle_request storeDown backendOkJson reqUsers).response.body
        = Body.textBody "Internal Server Error" ∧
    (handle_request storeDown backendOkJson reqUsers).calls = [] ∧
    (handle_request storeDown backendOkJson reqUsers).store = storeDown :=
  C3_store_unreachable storeDown backendOkJson reqUsers (by decide) (by decide) rfl

/-- C4 counterexample: the backend answers 200 with a body that is not
JSON; `response.json()` raises, the `except httpx.RequestError` clause does
not catch it, and the client gets an unhandled generic 500 — not the 502
the claim requires. -/
theorem C4_counterexample :
    (route_and_run storeZero backendNotJson reqUsers).result
        = Except.error (Exc.infra "JSONDecodeError") ∧
    (handle_request storeZero backendNotJson reqUsers).unhandled = true ∧
    (handle_request storeZero backendNotJson reqUsers).response.status = 500 ∧
    ¬ (handle_request storeZero backendNotJson reqUsers).response.status = 502 :=
  ⟨rfl, by decide, by decide, by decide⟩

/-- C4 amended: when the backend's response body cannot be interpreted as
JSON on a matched, admitted request, the decode error raised by
`response.json()` is not caught anywhere: it propagates as an unhandled
fault and the client receives a generic plain-text 500 with no
machine-readable reason — never a 502. -/
theorem C4_bad_backend_body (store : Store) (backend : Backend) (req : Request)
    (st : Nat) (hs : List (String × String))
    (hb : ∀ c, backend c = BackendAnswer.ok st hs none)
    (hm : strStarts req.path "/api/users/" = true)
    (hmeth : req.method ∈ allowedMethods)
    (hup : store.reachable = true)
    (hlim : store.counters (rate_limit_key req) + 1 ≤ 100) :
    (route_and_run store backend req).result
        = Except.error (Exc.infra "JSONDecodeError") ∧
    (handle_request store backend req).unhandled = true ∧
    (handle_request store backend req).response.status = 500 ∧
    (handle_request store backend req).response.body
        = Body.textBody "Internal Server Error" ∧
    ¬ (handle_request store backend req).response.status = 502 := by
  have hok := (rate_limiter_allow req store hup hlim).1
  have hroute := route_and_run_matched_allowed store backend req hm hmeth hok
  have hpr := proxy_request_bad_json backend USER_SERVICE_URL req.path req st hs hb hmeth
  have hres : (route_and_run store backend req).result
      = Except.error (Exc.infra "JSONDecodeError") := by rw [hroute]; exact hpr
  have hh := handle_request_of_infra store backend req "JSONDecodeError" hres
  exact ⟨hres, hh.2.2.1, hh.1, hh.2.1, by rw [hh.1]; decide⟩

/-- C4 amended witness: the not-JSON backend body yields the unhandled 500
on the concrete GET. -/
theorem C4_bad_backend_body_witness :
    (∀ c, backendNotJson c
        = BackendAnswer.ok 200 [("content-type", "text/html")] none) ∧
    (route_and_run storeZero backendNotJson reqUsers).result
        = Except.error (Exc.infra "JSONDecodeError") ∧
    (handle_request storeZero backendNotJson reqUsers).unhandled = true ∧
    (handle_request storeZero backendNotJson reqUsers).response.status = 500 ∧
    (handle_request storeZero backendNotJson reqUsers).response.body
        = Body.textBody "Internal Server Error" ∧
    ¬ (handle_request storeZero backendNotJson reqUsers).response.status = 502 :=
  ⟨fun _ => rfl,
   C4_bad_backend_body storeZero backendNotJson reqUsers 200
     [("content-type", "text/html")] (fun _ => rfl) (by decide) (by decide) rfl
     (by decide)⟩

/-- C5 counterexample: on a request whose downstream stage raises a
non-HTTP exception (unreachable counter store), the middleware records NO
`REQUEST_COUNT` increment and NO `REQUEST_DURATION` observation — the
recording lines sit after `call_next` inside the `try`, so the raise skips
them, contradicting "exactly one increment ... on every exit path". -/
theorem C5_counterexample :
    (handle_request storeDown backendOkJson reqUsersPost).events.filter isCountInc = [] ∧
    (handle_request storeDown backendOkJson reqUsersPost).events.filter isDurObs = [] ∧
    ¬ ((handle_request storeDown backendOkJson reqUsersPost).events.countP isCountInc
        = 1) := by
  decide

/-- C5 amended: when `call_next` returns a response (any HTTP status,
including converted `HTTPException`s), exactly one `REQUEST_COUNT`
increment labelled (method, base endpoint, final status) and exactly one
`REQUEST_DURATION` observation labelled (method, base endpoint) are
recorded; when downstream raises a non-HTTP exception, neither series is
recorded (only the gauge decrement still runs). -/
theorem C5_metrics_on_exit (store : Store) (backend : Backend) (req : Request) :
    ((handle_request store backend req).unhandled = false →
      (handle_request store backend req).events.filter isCountInc
        = [MEvent.countInc req.method (get_base_endpoint req.path)
            (handle_request store backend req).response.status] ∧
      (handle_request store backend req).events.filter isDurObs
        = [MEvent.durObs req.method (get_base_endpoint req.path)]) ∧
    ((handle_request store backend req).unhandled = true →
      (handle_request store backend req).events.filter isCountInc = [] ∧
      (handle_request store backend req).events.filter isDurObs = []) := by
  have he := route_and_run_events store backend req
  unfold handle_request
  cases hx : http_exc_handler (route_and_run store backend req).result with
  | error e =>
      rcases he with he | he <;> simp [hx, he, isCountInc, isDurObs]
  | ok resp =>
      rcases he with he | he <;> simp [hx, he, isCountInc, isDurObs]

/-- C5 amended witness: the successful concrete GET records exactly one
count increment and one duration observation. -/
theorem C5_metrics_on_exit_witness :
    (handle_request storeZero backendOkJson reqUsers).unhandled = false ∧
    (handle_request storeZero backendOkJson reqUsers).events.filter isCountInc
      = [MEvent.countInc reqUsers.method (get_base_endpoint reqUsers.path)
          (handle_request storeZero backendOkJson reqUsers).response.status] ∧
    (handle_request storeZero backendOkJson reqUsers).events.filter isDurObs
      = [MEvent.durObs reqUsers.method (get_base_endpoint reqUsers.path)] :=
  ⟨by decide, (C5_metrics_on_exit storeZero backendOkJson reqUsers).1 (by decide)⟩

/-- C6: on every request the active-request gauge is incremented first,
decremented last, these are the only gauge events, and the net effect on
the gauge is zero — also on requests that errored at any stage. -/
theorem C6_gauge_net_zero (store : Store) (backend : Backend) (req : Request) :
    gaugeNet (handle_request store backend req).events = 0 ∧
    (handle_request store backend req).events.head? = some MEvent.gaugeInc ∧
    (handle_request store backend req).events.getLast? = some MEvent.gaugeDec ∧
    (handle_request store backend req).events.filter isGauge
      = [MEvent.gaugeInc, MEvent.gaugeDec] := by
  have he := route_and_run_events store backend req
  unfold handle_request
  cases hx : http_exc_handler (route_and_run store backend req).result with
  | error e =>
      rcases he with he | he <;>
        exact ⟨by simp [hx, he, gaugeNet, gaugeDelta], by simp [hx, he],
               by simp only [hx, he]; rfl, by simp [hx, he, isGauge]⟩
  | ok resp =>
      rcases he with he | he <;>
        exact ⟨by simp [hx, he, gaugeNet, gaugeDelta], by simp [hx, he],
               by simp only [hx, he]; rfl, by simp [hx, he, isGauge]⟩

/-- C7: for every supported method, exactly one outbound call is
dispatched; its URL is the backend base URL concatenated with the full
downstream path, its headers are the inbound headers with exactly the host
header removed, its method equals the inbound method; GET passes the query
parameters through and POST/PUT pass the raw body through unmodified. -/
theorem C7_forwarding (backend : Backend) (su p : String) (req : Request)
    (hmeth : req.method ∈ allowedMethods) :
    ∃ c, (proxy_request backend su p req).calls = [c] ∧
      c.url = su ++ p ∧
      c.method = req.method ∧
      c.headers = dropHost req.headers ∧
      (req.method = "GET" → c.params = req.queryParams) ∧
      (req.method = "POST" ∨ req.method = "PUT" → c.body = some req.body) := by
  simp only [allowedMethods, List.mem_cons, List.not_mem_nil, or_false] at hmeth
  rcases hmeth with h | h | h | h
  · refine ⟨{ method := "GET", url := su ++ p, headers := dropHost req.headers,
              params := req.queryParams, body := none },
      ?_, rfl, h.symm, rfl, fun _ => rfl, ?_⟩
    · unfold proxy_request dispatchCall
      simp [h]
    · intro hx
      rw [h] at hx
      rcases hx with hx | hx <;> exact absurd hx (by decide)
  · refine ⟨{ method := "POST", url := su ++ p, headers := dropHost req.headers,
              params := [], body := some req.body },
      ?_, rfl, h.symm, rfl, ?_, fun _ => rfl⟩
    · unfold proxy_request dispatchCall
      simp [h]
    · intro hx
      rw [h] at hx
      exact absurd hx (by decide)
  · refine ⟨{ method := "PUT", url := su ++ p, headers := dropHost req.headers,
              params := [], body := some req.body },
      ?_, rfl, h.symm, rfl, ?_, fun _ => rfl⟩
    · unfold proxy_request dispatchCall
      simp [h]
    · intro hx
      rw [h] at hx
      exact absurd hx (by decide)
  · refine ⟨{ method := "DELETE", url := su ++ p, headers := dropHost req.headers,
              params := [], body := none },
      ?_, rfl, h.symm, rfl, ?_, ?_⟩
    · unfold proxy_request dispatchCall
      simp [h]
    · intro hx
      rw [h] at hx
      exact absurd hx (by decide)
    · intro hx
      rw [h] at hx
      rcases hx with hx | hx <;> exact absurd hx (by decide)

/-- C7 witness: the concrete POST is forwarded as one outbound POST with
the same path appended to the backend base URL, the host header stripped,
and the raw body passed through. -/
theorem C7_forwarding_witness :
    reqUsersPost.method ∈ allowedMethods ∧
    ∃ c, (proxy_request backendOkJson USER_SERVICE_URL reqUsersPost.path
            reqUsersPost).calls = [c] ∧
      c.url = USER_SERVICE_URL ++ reqUsersPost.path ∧
      c.method = reqUsersPost.method ∧
      c.headers = dropHost reqUsersPost.headers ∧
      (reqUsersPost.method = "GET" → c.params = reqUsersPost.queryParams) ∧
      (reqUsersPost.method = "POST" ∨ reqUsersPost.method = "PUT" →
        c.body = some reqUsersPost.body) :=
  ⟨by decide,
   C7_forwarding backendOkJson USER_SERVICE_URL reqUsersPost.path reqUsersPost
     (by decide)⟩

/-- C8: a request on the proxied route with a method outside
GET/POST/PUT/DELETE is answered 405 with no outbound call (FastAPI's route
matching rejects the method before the handler, so the outbound client is
never invoked), handled, with the store untouched. -/
theorem C8_unsupported_method (store : Store) (backend : Backend) (req : Request)
    (hm : strStarts req.path "/api/users/" = true)
    (hmeth : req.method ∉ allowedMethods) :
    (handle_request store backend req).response.status = 405 ∧
    (handle_request store backend req).calls = [] ∧
    (handle_request store backend req).unhandled = false ∧
    (handle_request store backend req).store = store := by
  have hroute := route_and_run_matched_405 store backend req hm hmeth
  have hres : (route_and_run store backend req).result
      = Except.error (Exc.http 405 "Method Not Allowed") := by rw [hroute]
  have hh := handle_request_of_http_error store backend req 405 "Method Not Allowed" hres
  refine ⟨?_, ?_, hh.2.1, ?_⟩
  · rw [hh.1]
    rfl
  · rw [hh.2.2.1, hroute]
  · rw [hh.2.2.2, hroute]

/-- C8 witness: a PATCH to `/api/users/42` is answered 405 with no
outbound call. -/
theorem C8_unsupported_method_witness :
    (handle_request storeZero backendOkJson reqUsersPatch).response.status = 405 ∧
    (handle_request storeZero backendOkJson reqUsersPatch).calls = [] ∧
    (handle_request storeZero backendOkJson reqUsersPatch).unhandled = false ∧
    (handle_request storeZero backendOkJson reqUsersPatch).store = storeZero :=
  C8_unsupported_method storeZero backendOkJson reqUsersPatch (by decide) (by decide)

/-- C9: when every outbound call fails at the network level (connection
refused, timeout — the 30-second client timeout raises a subclass of
`httpx.RequestError`), a matched, admitted request is answered 503 with a
machine-readable service-unavailable detail, the error text is recorded as
trace span attributes, and the response is not in the 200 series. -/
theorem C9_backend_network_failure (store : Store) (backend : Backend)
    (req : Request) (msg : String)
    (hb : ∀ c, backend c = BackendAnswer.netErr msg)
    (hm : strStarts req.path "/api/users/" = true)
    (hmeth : req.method ∈ allowedMethods)
    (hup : store.reachable = true)
    (hlim : store.counters (rate_limit_key req) + 1 ≤ 100) :
    HTTP_CLIENT_TIMEOUT_SECONDS = 30 ∧
    (handle_request store backend req).response
        = jsonResponse 503
            (Json.jobj [("detail", Json.jstr ("Service unavailable: " ++ msg))]) ∧
    (handle_request store backend req).unhandled = false ∧
    ¬ (200 ≤ (handle_request store backend req).response.status ∧
        (handle_request store backend req).response.status < 300) ∧
    ("error", AttrVal.b true)
      ∈ (proxy_request backend USER_SERVICE_URL req.path req).span ∧
    ("error.message", AttrVal.s msg)
      ∈ (proxy_request backend USER_SERVICE_URL req.path req).span := by
  have hok := (rate_limiter_allow req store hup hlim).1
  have hroute := route_and_run_matched_allowed store backend req hm hmeth hok
  have hpx := proxy_request_netErr backend USER_SERVICE_URL req.path req msg hb hmeth
  have hres : (route_and_run store backend req).result
      = Except.error (Exc.http 503 ("Service unavailable: " ++ msg)) := by
    rw [hroute]
    exact hpx.1
  have hh := handle_request_of_http_error store backend req 503
    ("Service unavailable: " ++ msg) hres
  refine ⟨rfl, hh.1, hh.2.1, ?_, hpx.2.1, hpx.2.2⟩
  rw [hh.1]
  intro hx
  have h300 : (503 : Nat) < 300 := hx.2
  omega

/-- C9 witness: with a connection-refused backend, the concrete GET is
answered 503 with the detail text and the proxy span carries the error
attributes. -/
theorem C9_backend_network_failure_witness :
    (∀ c, backendDown c = BackendAnswer.netErr "Connection refused") ∧
    (handle_request storeZero backendDown reqUsers).response
        = jsonResponse 503
            (Json.jobj [("detail",
              Json.jstr ("Service unavailable: " ++ "Connection refused"))]) ∧
    ("error", AttrVal.b true)
      ∈ (proxy_request backendDown USER_SERVICE_URL reqUsers.path reqUsers).span ∧
    ("error.message", AttrVal.s "Connection refused")
      ∈ (proxy_request backendDown USER_SERVICE_URL reqUsers.path reqUsers).span := by
  have h := C9_backend_network_failure storeZero backendDown reqUsers
    "Connection refused" (fun _ => rfl) (by decide) (by decide) rfl (by decide)
  exact ⟨fun _ => rfl, h.2.1, h.2.2.2.2.1, h.2.2.2.2.2⟩

/-- C10: a successfully forwarded request with a JSON-decodable backend
body is relayed as a `JSONResponse` carrying only the backend's status and
the re-serialized decoded JSON value: the backend's response headers are
not relayed and the content type is JSON regardless of the backend's
original content type. -/
theorem C10_relay (backend : Backend) (su p : String) (req : Request)
    (st : Nat) (hs : List (String × String)) (j : Json)
    (hb : ∀ c, backend c = BackendAnswer.ok st hs (some j))
    (hmeth : req.method ∈ allowedMethods) :
    (proxy_request backend su p req).result = Except.ok (jsonResponse st j) ∧
    (jsonResponse st j).status = st ∧
    (jsonResponse st j).headers = [] ∧
    (jsonResponse st j).mediaType = "application/json" ∧
    (jsonResponse st j).body = Body.jsonBody j := by
  obtain ⟨c, hc⟩ := dispatchCall_allowed (su ++ p) (dropHost req.headers) req hmeth
  refine ⟨?_, rfl, rfl, rfl, rfl⟩
  unfold proxy_request
  simp [hc, hb]

/-- C10 witness: the backend's 200/JSON answer (with its own content-type
and extra headers) is relayed as a bare JSON response of the decoded
value. -/
theorem C10_relay_witness :
    (∀ c, backendOkJson c = BackendAnswer.ok 200
        [("content-type", "application/json"), ("x-backend", "users")]
        (some (Json.jobj [("id", Json.jnum 42)]))) ∧
    (proxy_request backendOkJson USER_SERVICE_URL reqUsers.path reqUsers).result
        = Except.ok (jsonResponse 200 (Json.jobj [("id", Json.jnum 42)])) ∧
    (jsonResponse 200 (Json.jobj [("id", Json.jnum 42)])).headers = [] ∧
    (jsonResponse 200 (Json.jobj [("id", Json.jnum 42)])).mediaType
        = "application/json" :=
  ⟨fun _ => rfl,
   (C10_relay backendOkJson USER_SERVICE_URL reqUsers.path reqUsers 200
     [("content-type", "application/json"), ("x-backend", "users")]
     (Json.jobj [("id", Json.jnum 42)]) (fun _ => rfl) (by decide)).1,
   rfl, rfl⟩

end Gateway
